import Mathlib

/-!
Verification of a small account-to-account payment program.

The program consists of a `BankAccount` class (identity, balance, two stored
verification secrets), two payment variants (`CreditCardPayment`,
`PayPalPayment`) that resolve accounts from a dictionary, verify a presented
credential against the sender's stored secret, and then move funds via
`transfer`, and a demonstration driver `main`.

Modelling choices:
- balances are rationals (the source uses Python floats only for +, -, and
  comparison on small decimal values; exact arithmetic models the intent of
  the ledger operations);
- the account dictionary is an association list from identifier to account
  value; the Python dict has unique keys, and `lookupAcc`/`updateBal` act on
  the first matching entry, which coincides with dict semantics;
- object mutation (`self._balance -= amount`) is modelled as an update of the
  entry the object was resolved from, keyed by the identifier used to resolve
  it; a raised exception (KeyError from a missing dictionary key) is an
  `Except.error` result paired with the untouched state.
-/

deriving instance DecidableEq for Except

namespace HW

/-- The `BankAccount` class: identifier, balance, stored credit-card number
and stored PayPal email.  The email is optional to model an absent (`None`)
stored value, which the source guards with `self._paypal_email or ""`. -/
structure BankAccount where
  id : String
  balance : ℚ
  credit_card_number : String
  paypal_email : Option String
  deriving DecidableEq

/-- `BankAccount.__init__`: stores the four fields directly, with no
validation of the initial balance. -/
def BankAccount.init (id : String) (balance : ℚ)
    (credit_card_number : String) (paypal_email : Option String) : BankAccount :=
  { id := id, balance := balance, credit_card_number := credit_card_number,
    paypal_email := paypal_email }

/-- The `balance` property setter: raises `ValueError` on a negative value,
otherwise stores it. -/
def BankAccount.set_balance (a : BankAccount) (value : ℚ) : Except String BankAccount :=
  if value < 0 then Except.error "Balance cannot be negative"
  else Except.ok { a with balance := value }

/-- `BankAccount.verify_credit_card`: exact string equality with the stored
card number. -/
def BankAccount.verify_credit_card (a : BankAccount) (card_number : String) : Bool :=
  card_number == a.credit_card_number

/-- `BankAccount.verify_paypal_email`: case-insensitive equality with the
stored email, an absent stored email being treated as `""` by the
`self._paypal_email or ""` guard. -/
def BankAccount.verify_paypal_email (a : BankAccount) (email : String) : Bool :=
  email.toLower == (a.paypal_email.getD "").toLower

/-- The account dictionary: identifier-keyed association list. -/
abbrev AccountMap := List (String × BankAccount)

/-- Dictionary lookup (`accounts[k]` yields `some` on a hit, `none` models a
`KeyError`). -/
def lookupAcc : AccountMap → String → Option BankAccount
  | [], _ => none
  | kv :: rest, k => if kv.1 = k then some kv.2 else lookupAcc rest k

/-- In-place mutation of the balance of the account stored under key `k`
(the first matching entry, as in a dict with unique keys); a missing key
leaves the map unchanged. -/
def updateBal : AccountMap → String → (ℚ → ℚ) → AccountMap
  | [], _, _ => []
  | kv :: rest, k, f =>
    if kv.1 = k then (kv.1, { kv.2 with balance := f kv.2.balance }) :: rest
    else kv :: updateBal rest k f

/-- `BankAccount.transfer`, acting on the state: the sender is the account
resolved from key `fromId`.  Returns `false` with no state change if the
amount is non-positive or exceeds the sender's balance; otherwise debits the
sender's entry, credits the entry under `toId`, and returns `true`. -/
def transfer (m : AccountMap) (fromId toId : String) (amount : ℚ) : Bool × AccountMap :=
  match lookupAcc m fromId with
  | none => (false, m)
  | some sender =>
    if amount ≤ 0 then (false, m)
    else if sender.balance < amount then (false, m)
    else (true, updateBal (updateBal m fromId (fun b => b - amount)) toId (fun b => b + amount))

/-- `CreditCardPayment`: amount, source id, destination id, presented card
number. -/
structure CreditCardPayment where
  amount : ℚ
  from_account_id : String
  to_account_id : String
  card_number : String
  deriving DecidableEq

/-- `PayPalPayment`: amount, source id, destination id, presented email. -/
structure PayPalPayment where
  amount : ℚ
  from_account_id : String
  to_account_id : String
  email : String
  deriving DecidableEq

/-- `CreditCardPayment.process`: resolve sender and receiver (a missing key
raises, modelled as `Except.error` with the state untouched), verify the
presented card number, and on success delegate to `transfer`. -/
def CreditCardPayment.process (p : CreditCardPayment) (accounts : AccountMap) :
    Except String Bool × AccountMap :=
  match lookupAcc accounts p.from_account_id with
  | none => (Except.error "KeyError", accounts)
  | some sender =>
    match lookupAcc accounts p.to_account_id with
    | none => (Except.error "KeyError", accounts)
    | some _ =>
      if sender.verify_credit_card p.card_number then
        let r := transfer accounts p.from_account_id p.to_account_id p.amount
        (Except.ok r.1, r.2)
      else (Except.ok false, accounts)

/-- `PayPalPayment.process`: same shape as the credit-card variant with the
email check. -/
def PayPalPayment.process (p : PayPalPayment) (accounts : AccountMap) :
    Except String Bool × AccountMap :=
  match lookupAcc accounts p.from_account_id with
  | none => (Except.error "KeyError", accounts)
  | some sender =>
    match lookupAcc accounts p.to_account_id with
    | none => (Except.error "KeyError", accounts)
    | some _ =>
      if sender.verify_paypal_email p.email then
        let r := transfer accounts p.from_account_id p.to_account_id p.amount
        (Except.ok r.1, r.2)
      else (Except.ok false, accounts)

/-- The driver's first account, `A001` with balance 1000. -/
def accA001 : BankAccount :=
  BankAccount.init "A001" 1000 "1234567890123456" (some "user1@example.com")

/-- The driver's second account, `A002` with balance 500. -/
def accA002 : BankAccount :=
  BankAccount.init "A002" 500 "1111222233334444" (some "user2@example.com")

/-- The driver's initial account dictionary. -/
def mainAccounts : AccountMap :=
  [("A001", accA001), ("A002", accA002)]

/-- The driver's first payment: credit card, 200, A001 to A002, correct card. -/
def payment1 : CreditCardPayment :=
  { amount := 200, from_account_id := "A001", to_account_id := "A002",
    card_number := "1234567890123456" }

/-- The driver's second payment: PayPal, 300, A001 to A002, wrong email. -/
def payment2 : PayPalPayment :=
  { amount := 300, from_account_id := "A001", to_account_id := "A002",
    email := "wrong@example.com" }

/-- The driver's third payment: credit card, 900, A002 to A001, correct card. -/
def payment3 : CreditCardPayment :=
  { amount := 900, from_account_id := "A002", to_account_id := "A001",
    card_number := "1111222233334444" }

/-- The account dictionary after the driver's first payment. -/
def mapAfter1 : AccountMap :=
  [("A001", BankAccount.init "A001" 800 "1234567890123456" (some "user1@example.com")),
   ("A002", BankAccount.init "A002" 700 "1111222233334444" (some "user2@example.com"))]

/-- A payment from `A001` to itself with a valid card, used to examine
reprocessing of one payment object. -/
def selfPayment : CreditCardPayment :=
  { amount := 1, from_account_id := "A001", to_account_id := "A001",
    card_number := "1234567890123456" }

/-- An account with no stored PayPal email. -/
def accNoEmail : BankAccount := BankAccount.init "A003" 0 "5555" none

/-- A payment whose amount exceeds the sender's funds and whose presented
card is wrong. -/
def badCardPayment : CreditCardPayment :=
  { amount := 5000, from_account_id := "A001", to_account_id := "A002",
    card_number := "0000000000000000" }

/-- A credit-card payment naming an unknown destination account. -/
def ghostCC : CreditCardPayment :=
  { amount := 50, from_account_id := "A001", to_account_id := "A999",
    card_number := "1234567890123456" }

/-- A PayPal payment naming an unknown source account. -/
def ghostPP : PayPalPayment :=
  { amount := 50, from_account_id := "A999", to_account_id := "A002",
    email := "user1@example.com" }

/-- A PayPal payment with a valid (differently-cased) email. -/
def okPP : PayPalPayment :=
  { amount := 100, from_account_id := "A001", to_account_id := "A002",
    email := "USER1@example.com" }

/-- The non-balance data of the state: for every entry, its key and the
account's identifier, stored card number and stored PayPal email. -/
def shape (m : AccountMap) : List (String × String × String × Option String) :=
  m.map (fun kv => (kv.1, kv.2.id, kv.2.credit_card_number, kv.2.paypal_email))

/-- Every balance in the state is non-negative. -/
def allNonneg (m : AccountMap) : Prop :=
  ∀ kv ∈ m, 0 ≤ kv.2.balance

theorem lookupAcc_updateBal_self (m : AccountMap) (k : String) (f : ℚ → ℚ)
    (a : BankAccount) (h : lookupAcc m k = some a) :
    lookupAcc (updateBal m k f) k = some { a with balance := f a.balance } := by
  induction m with
  | nil => simp [lookupAcc] at h
  | cons kv rest ih =>
    by_cases hk : kv.1 = k
    · simp [lookupAcc, hk] at h
      simp [updateBal, hk, lookupAcc, h]
    · simp [lookupAcc, hk] at h
      simp [updateBal, hk, lookupAcc, ih h]

theorem lookupAcc_updateBal_ne (m : AccountMap) (k q : String) (f : ℚ → ℚ)
    (hne : q ≠ k) : lookupAcc (updateBal m k f) q = lookupAcc m q := by
  have hkq : k ≠ q := fun hqq => hne hqq.symm
  induction m with
  | nil => simp [updateBal]
  | cons kv rest ih =>
    by_cases hk : kv.1 = k
    · simp [updateBal, hk, lookupAcc, hkq]
    · by_cases hq : kv.1 = q
      · simp [updateBal, hk, lookupAcc, hq, hne]
      · simp [updateBal, hk, lookupAcc, hq, ih]

theorem shape_updateBal (m : AccountMap) (k : String) (f : ℚ → ℚ) :
    shape (updateBal m k f) = shape m := by
  induction m with
  | nil => simp [updateBal]
  | cons kv rest ih =>
    by_cases hk : kv.1 = k
    · simp [updateBal, hk, shape]
    · simp only [updateBal, if_neg hk, shape, List.map_cons]
      simpa [shape] using ih

theorem allNonneg_updateBal_add (m : AccountMap) (k : String) (c : ℚ)
    (hc : 0 ≤ c) (h : allNonneg m) : allNonneg (updateBal m k (fun b => b + c)) := by
  induction m with
  | nil => simpa [updateBal] using h
  | cons kv rest ih =>
    have hhd : 0 ≤ kv.2.balance := h kv (by simp)
    have htl : allNonneg rest := fun x hx => h x (by simp [hx])
    by_cases hk : kv.1 = k
    · intro x hx
      simp only [updateBal, if_pos hk, List.mem_cons] at hx
      rcases hx with hx | hx
      · subst hx; exact add_nonneg hhd hc
      · exact htl x hx
    · intro x hx
      simp only [updateBal, if_neg hk, List.mem_cons] at hx
      rcases hx with hx | hx
      · subst hx; exact hhd
      · exact ih htl x hx

theorem allNonneg_updateBal_sub (m : AccountMap) (k : String) (c : ℚ)
    (a : BankAccount) (hl : lookupAcc m k = some a) (hc : c ≤ a.balance)
    (h : allNonneg m) : allNonneg (updateBal m k (fun b => b - c)) := by
  induction m with
  | nil => simp [lookupAcc] at hl
  | cons kv rest ih =>
    have hhd : 0 ≤ kv.2.balance := h kv (by simp)
    have htl : allNonneg rest := fun x hx => h x (by simp [hx])
    by_cases hk : kv.1 = k
    · simp only [lookupAcc, if_pos hk, Option.some.injEq] at hl
      intro x hx
      simp only [updateBal, if_pos hk, List.mem_cons] at hx
      rcases hx with hx | hx
      · subst hx
        simpa [hl] using sub_nonneg.mpr hc
      · exact htl x hx
    · simp only [lookupAcc, if_neg hk] at hl
      intro x hx
      simp only [updateBal, if_neg hk, List.mem_cons] at hx
      rcases hx with hx | hx
      · subst hx; exact hhd
      · exact ih hl htl x hx

theorem transfer_valid_spec (m : AccountMap) (fromId toId : String) (a : ℚ)
    (sender receiver : BankAccount)
    (hs : lookupAcc m fromId = some sender) (hr : lookupAcc m toId = some receiver)
    (hne : fromId ≠ toId) (hpos : 0 < a) (hle : a ≤ sender.balance) :
    (transfer m fromId toId a).1 = true ∧
    lookupAcc (transfer m fromId toId a).2 fromId =
      some { sender with balance := sender.balance - a } ∧
    lookupAcc (transfer m fromId toId a).2 toId =
      some { receiver with balance := receiver.balance + a } := by
  have hnle : ¬ a ≤ 0 := not_le.mpr hpos
  have hnlt : ¬ sender.balance < a := not_lt.mpr hle
  have ht : transfer m fromId toId a =
      (true, updateBal (updateBal m fromId (fun b => b - a)) toId (fun b => b + a)) := by
    simp [transfer, hs, hnle, hnlt]
  refine ⟨by rw [ht], ?_, ?_⟩
  · rw [ht]
    rw [lookupAcc_updateBal_ne _ toId fromId _ hne]
    exact lookupAcc_updateBal_self m fromId _ sender hs
  · rw [ht]
    have h1 : lookupAcc (updateBal m fromId (fun b => b - a)) toId = some receiver := by
      rw [lookupAcc_updateBal_ne _ fromId toId _ (Ne.symm hne)]
      exact hr
    exact lookupAcc_updateBal_self _ toId _ receiver h1

theorem transfer_reject_spec (m : AccountMap) (fromId toId : String) (a : ℚ)
    (sender : BankAccount) (hs : lookupAcc m fromId = some sender)
    (h : a ≤ 0 ∨ sender.balance < a) :
    transfer m fromId toId a = (false, m) := by
  by_cases h0 : a ≤ 0
  · simp [transfer, hs, h0]
  · rcases h with h | h
    · exact absurd h h0
    · simp [transfer, hs, h0, h]

theorem transfer_self_spec (m : AccountMap) (k : String) (a : ℚ) (acc : BankAccount)
    (h : lookupAcc m k = some acc) (hpos : 0 < a) (hle : a ≤ acc.balance) :
    (transfer m k k a).1 = true ∧ lookupAcc (transfer m k k a).2 k = some acc := by
  have hnle : ¬ a ≤ 0 := not_le.mpr hpos
  have hnlt : ¬ acc.balance < a := not_lt.mpr hle
  have ht : transfer m k k a =
      (true, updateBal (updateBal m k (fun b => b - a)) k (fun b => b + a)) := by
    simp [transfer, h, hnle, hnlt]
  refine ⟨by rw [ht], ?_⟩
  rw [ht]
  have h1 := lookupAcc_updateBal_self m k (fun b => b - a) acc h
  have h2 := lookupAcc_updateBal_self _ k (fun b => b + a) _ h1
  rw [h2]
  have hbal : acc.balance - a + a = acc.balance := by ring
  simp [hbal]

theorem transfer_frame_spec (m : AccountMap) (fromId toId k : String) (a : ℚ) :
    shape (transfer m fromId toId a).2 = shape m ∧
    (k ≠ fromId → k ≠ toId →
      lookupAcc (transfer m fromId toId a).2 k = lookupAcc m k) := by
  cases hs : lookupAcc m fromId with
  | none => simp [transfer, hs]
  | some sender =>
    by_cases h0 : a ≤ 0
    · simp [transfer, hs, h0]
    · by_cases h1 : sender.balance < a
      · simp [transfer, hs, h0, h1]
      · have ht : (transfer m fromId toId a).2 =
            updateBal (updateBal m fromId (fun b => b - a)) toId (fun b => b + a) := by
          simp [transfer, hs, h0, h1]
        rw [ht]
        constructor
        · rw [shape_updateBal, shape_updateBal]
        · intro hkf hkt
          rw [lookupAcc_updateBal_ne _ toId k _ hkt, lookupAcc_updateBal_ne _ fromId k _ hkf]

theorem processCC_state_cases (p : CreditCardPayment) (m : AccountMap) :
    (p.process m).2 = m ∨
    (p.process m).2 = (transfer m p.from_account_id p.to_account_id p.amount).2 := by
  unfold CreditCardPayment.process
  cases hs : lookupAcc m p.from_account_id with
  | none => left; rfl
  | some sender =>
    cases hr : lookupAcc m p.to_account_id with
    | none => left; rfl
    | some receiver =>
      by_cases hv : sender.verify_credit_card p.card_number
      · right; simp [hv]
      · left; simp [hv]

theorem processPP_state_cases (p : PayPalPayment) (m : AccountMap) :
    (p.process m).2 = m ∨
    (p.process m).2 = (transfer m p.from_account_id p.to_account_id p.amount).2 := by
  unfold PayPalPayment.process
  cases hs : lookupAcc m p.from_account_id with
  | none => left; rfl
  | some sender =>
    cases hr : lookupAcc m p.to_account_id with
    | none => left; rfl
    | some receiver =>
      by_cases hv : sender.verify_paypal_email p.email
      · right; simp [hv]
      · left; simp [hv]

theorem processCC_bad_credential_spec (p : CreditCardPayment) (m : AccountMap)
    (sender receiver : BankAccount)
    (hs : lookupAcc m p.from_account_id = some sender)
    (hr : lookupAcc m p.to_account_id = some receiver)
    (hv : sender.verify_credit_card p.card_number = false) :
    p.process m = (Except.ok false, m) := by
  simp [CreditCardPayment.process, hs, hr, hv]

theorem processPP_bad_credential_spec (p : PayPalPayment) (m : AccountMap)
    (sender receiver : BankAccount)
    (hs : lookupAcc m p.from_account_id = some sender)
    (hr : lookupAcc m p.to_account_id = some receiver)
    (hv : sender.verify_paypal_email p.email = false) :
    p.process m = (Except.ok false, m) := by
  simp [PayPalPayment.process, hs, hr, hv]

theorem processCC_missing_spec (p : CreditCardPayment) (m : AccountMap)
    (h : lookupAcc m p.from_account_id = none ∨ lookupAcc m p.to_account_id = none) :
    p.process m = (Except.error "KeyError", m) := by
  rcases h with h | h
  · simp [CreditCardPayment.process, h]
  · cases hs : lookupAcc m p.from_account_id with
    | none => simp [CreditCardPayment.process, hs]
    | some sender => simp [CreditCardPayment.process, hs, h]

theorem processPP_missing_spec (p : PayPalPayment) (m : AccountMap)
    (h : lookupAcc m p.from_account_id = none ∨ lookupAcc m p.to_account_id = none) :
    p.process m = (Except.error "KeyError", m) := by
  rcases h with h | h
  · simp [PayPalPayment.process, h]
  · cases hs : lookupAcc m p.from_account_id with
    | none => simp [PayPalPayment.process, hs]
    | some sender => simp [PayPalPayment.process, hs, h]

theorem processCC_success_spec (p : CreditCardPayment) (m : AccountMap)
    (sender receiver : BankAccount)
    (hne : p.from_account_id ≠ p.to_account_id)
    (hs : lookupAcc m p.from_account_id = some sender)
    (hr : lookupAcc m p.to_account_id = some receiver)
    (hv : sender.verify_credit_card p.card_number = true)
    (hpos : 0 < p.amount) (hle : p.amount ≤ sender.balance) :
    (p.process m).1 = Except.ok true ∧
    lookupAcc (p.process m).2 p.from_account_id =
      some { sender with balance := sender.balance - p.amount } ∧
    lookupAcc (p.process m).2 p.to_account_id =
      some { receiver with balance := receiver.balance + p.amount } := by
  have hp : p.process m =
      (Except.ok (transfer m p.from_account_id p.to_account_id p.amount).1,
       (transfer m p.from_account_id p.to_account_id p.amount).2) := by
    simp [CreditCardPayment.process, hs, hr, hv]
  obtain ⟨h1, h2, h3⟩ :=
    transfer_valid_spec m p.from_account_id p.to_account_id p.amount sender receiver
      hs hr hne hpos hle
  rw [hp]
  exact ⟨by rw [h1], h2, h3⟩

theorem processPP_success_spec (p : PayPalPayment) (m : AccountMap)
    (sender receiver : BankAccount)
    (hne : p.from_account_id ≠ p.to_account_id)
    (hs : lookupAcc m p.from_account_id = some sender)
    (hr : lookupAcc m p.to_account_id = some receiver)
    (hv : sender.verify_paypal_email p.email = true)
    (hpos : 0 < p.amount) (hle : p.amount ≤ sender.balance) :
    (p.process m).1 = Except.ok true ∧
    lookupAcc (p.process m).2 p.from_account_id =
      some { sender with balance := sender.balance - p.amount } ∧
    lookupAcc (p.process m).2 p.to_account_id =
      some { receiver with balance := receiver.balance + p.amount } := by
  have hp : p.process m =
      (Except.ok (transfer m p.from_account_id p.to_account_id p.amount).1,
       (transfer m p.from_account_id p.to_account_id p.amount).2) := by
    simp [PayPalPayment.process, hs, hr, hv]
  obtain ⟨h1, h2, h3⟩ :=
    transfer_valid_spec m p.from_account_id p.to_account_id p.amount sender receiver
      hs hr hne hpos hle
  rw [hp]
  exact ⟨by rw [h1], h2, h3⟩

theorem toLower_eq_empty_iff (s : String) : s.toLower = "" ↔ s = "" := by
  constructor
  · intro h
    have hd : s.data.map Char.toLower = [] := by
      have h2 := congrArg String.data h
      simpa [String.toLower, String.map_eq] using h2
    have hnil : s.data = [] := by simpa using hd
    cases s with
    | mk data =>
      simp only at hnil
      rw [hnil]
  · intro h
    rw [h]
    simp [String.toLower, String.map_eq]

theorem transfer_preserves_nonneg (m : AccountMap) (fromId toId : String) (a : ℚ)
    (hm : allNonneg m) : allNonneg (transfer m fromId toId a).2 := by
  cases hs : lookupAcc m fromId with
  | none => simpa [transfer, hs] using hm
  | some sender =>
    by_cases h0 : a ≤ 0
    · simpa [transfer, hs, h0] using hm
    · by_cases h1 : sender.balance < a
      · simpa [transfer, hs, h0, h1] using hm
      · have ht : (transfer m fromId toId a).2 =
            updateBal (updateBal m fromId (fun b => b - a)) toId (fun b => b + a) := by
          simp [transfer, hs, h0, h1]
        rw [ht]
        exact allNonneg_updateBal_add _ toId a (le_of_lt (not_le.mp h0))
          (allNonneg_updateBal_sub m fromId a sender hs (not_lt.mp h1) hm)

/-- Claim C1: for every pair of distinct accounts in the state and every
amount `a` with `0 < a ≤ sender.balance`, `transfer` returns `true`, the
sender's balance decreases by exactly `a`, the receiver's balance increases
by exactly `a`, and the sum of the two balances is conserved. -/
theorem C1_valid_transfer_moves_amount (m : AccountMap) (fromId toId : String)
    (a : ℚ) (sender receiver : BankAccount)
    (hs : lookupAcc m fromId = some sender) (hr : lookupAcc m toId = some receiver)
    (hne : fromId ≠ toId) (hpos : 0 < a) (hle : a ≤ sender.balance) :
    (transfer m fromId toId a).1 = true ∧
    lookupAcc (transfer m fromId toId a).2 fromId =
      some { sender with balance := sender.balance - a } ∧
    lookupAcc (transfer m fromId toId a).2 toId =
      some { receiver with balance := receiver.balance + a } ∧
    (sender.balance - a) + (receiver.balance + a) = sender.balance + receiver.balance := by
  obtain ⟨h1, h2, h3⟩ :=
    transfer_valid_spec m fromId toId a sender receiver hs hr hne hpos hle
  exact ⟨h1, h2, h3, by ring⟩

theorem C1_witness :
    (transfer mainAccounts "A001" "A002" 200).1 = true ∧
    lookupAcc (transfer mainAccounts "A001" "A002" 200).2 "A001" =
      some { accA001 with balance := accA001.balance - 200 } ∧
    lookupAcc (transfer mainAccounts "A001" "A002" 200).2 "A002" =
      some { accA002 with balance := accA002.balance + 200 } ∧
    (accA001.balance - 200) + (accA002.balance + 200) =
      accA001.balance + accA002.balance :=
  C1_valid_transfer_moves_amount mainAccounts "A001" "A002" 200 accA001 accA002
    (by decide) (by decide) (by decide) (by decide) (by decide)

/-- Claim C2: `transfer` returns `false` and leaves the whole state (hence
both the sender's and the receiver's balance) unchanged whenever the amount
is non-positive or exceeds the sender's current balance. -/
theorem C2_invalid_transfer_rejected (m : AccountMap) (fromId toId : String)
    (a : ℚ) (sender : BankAccount) (hs : lookupAcc m fromId = some sender)
    (h : a ≤ 0 ∨ sender.balance < a) :
    transfer m fromId toId a = (false, m) :=
  transfer_reject_spec m fromId toId a sender hs h

theorem C2_witness :
    transfer mainAccounts "A001" "A002" 2000 = (false, mainAccounts) :=
  C2_invalid_transfer_rejected mainAccounts "A001" "A002" 2000 accA001
    (by decide) (Or.inr (by decide))

/-- Claim C10: a self-transfer with `0 < a ≤ balance` is accepted and is a
no-op on the balance: it returns `true` and the account is unchanged. -/
theorem C10_self_transfer_noop (m : AccountMap) (k : String) (a : ℚ)
    (acc : BankAccount) (h : lookupAcc m k = some acc)
    (hpos : 0 < a) (hle : a ≤ acc.balance) :
    (transfer m k k a).1 = true ∧ lookupAcc (transfer m k k a).2 k = some acc :=
  transfer_self_spec m k a acc h hpos hle

theorem C10_witness :
    (transfer mainAccounts "A001" "A001" 200).1 = true ∧
    lookupAcc (transfer mainAccounts "A001" "A001" 200).2 "A001" = some accA001 :=
  C10_self_transfer_noop mainAccounts "A001" 200 accA001
    (by decide) (by decide) (by decide)

/-- Claim C4: for either payment variant, if both identifiers resolve but
the presented credential does not verify against the sender's stored
secret, `process` returns `false` and the state is unchanged, regardless of
funds sufficiency. -/
theorem C4_bad_credential_no_mutation (m : AccountMap)
    (p : CreditCardPayment) (q : PayPalPayment)
    (sender receiver sender2 receiver2 : BankAccount) :
    (lookupAcc m p.from_account_id = some sender →
     lookupAcc m p.to_account_id = some receiver →
     sender.verify_credit_card p.card_number = false →
     p.process m = (Except.ok false, m)) ∧
    (lookupAcc m q.from_account_id = some sender2 →
     lookupAcc m q.to_account_id = some receiver2 →
     sender2.verify_paypal_email q.email = false →
     q.process m = (Except.ok false, m)) :=
  ⟨fun hs hr hv => processCC_bad_credential_spec p m sender receiver hs hr hv,
   fun hs hr hv => processPP_bad_credential_spec q m sender2 receiver2 hs hr hv⟩

theorem C4_witness :
    badCardPayment.process mainAccounts = (Except.ok false, mainAccounts) ∧
    payment2.process mainAccounts = (Except.ok false, mainAccounts) := by
  obtain ⟨h1, h2⟩ := C4_bad_credential_no_mutation mainAccounts badCardPayment payment2
    accA001 accA002 accA001 accA002
  refine ⟨h1 (by decide) (by decide) (by decide), h2 (by decide) (by decide) ?_⟩
  simp only [BankAccount.verify_paypal_email, accA001, BankAccount.init, payment2,
    String.toLower, String.map_eq]
  decide

/-- Claim C5: card verification is exact (case-sensitive) equality with the
stored card number; email verification is case-insensitive equality with
the stored email, an absent stored email being treated as the empty string,
so that against an absent stored email only the empty presented email
verifies. -/
theorem C5_verification_semantics (acc : BankAccount) (presented : String) :
    (acc.verify_credit_card presented = true ↔ presented = acc.credit_card_number) ∧
    (acc.verify_paypal_email presented = true ↔
      presented.toLower = (acc.paypal_email.getD "").toLower) ∧
    (acc.paypal_email = none →
      (acc.verify_paypal_email presented = true ↔ presented = "")) := by
  refine ⟨?_, ?_, ?_⟩
  · simp [BankAccount.verify_credit_card]
  · simp [BankAccount.verify_paypal_email]
  · intro hnone
    simp only [BankAccount.verify_paypal_email, hnone, Option.getD_none, beq_iff_eq]
    constructor
    · intro h
      have h0 : ("" : String).toLower = "" := (toLower_eq_empty_iff "").mpr rfl
      rw [h0] at h
      exact (toLower_eq_empty_iff presented).mp h
    · intro h
      rw [h]

theorem C5_witness :
    (accNoEmail.verify_credit_card "x" = true ↔ "x" = accNoEmail.credit_card_number) ∧
    (accNoEmail.verify_paypal_email "x" = true ↔
      "x".toLower = (accNoEmail.paypal_email.getD "").toLower) ∧
    (accNoEmail.verify_paypal_email "x" = true ↔ "x" = "") :=
  ⟨(C5_verification_semantics accNoEmail "x").1,
   (C5_verification_semantics accNoEmail "x").2.1,
   (C5_verification_semantics accNoEmail "x").2.2 rfl⟩

/-- Claim C6: for either payment variant, if the source or the destination
identifier is absent from the state, `process` raises (modelled: returns the
`KeyError` fault, not a boolean) and the state is unchanged. -/
theorem C6_missing_account_faults (m : AccountMap)
    (p : CreditCardPayment) (q : PayPalPayment) :
    ((lookupAcc m p.from_account_id = none ∨ lookupAcc m p.to_account_id = none) →
      p.process m = (Except.error "KeyError", m)) ∧
    ((lookupAcc m q.from_account_id = none ∨ lookupAcc m q.to_account_id = none) →
      q.process m = (Except.error "KeyError", m)) :=
  ⟨fun h => processCC_missing_spec p m h, fun h => processPP_missing_spec q m h⟩

theorem C6_witness :
    ghostCC.process mainAccounts = (Except.error "KeyError", mainAccounts) ∧
    ghostPP.process mainAccounts = (Except.error "KeyError", mainAccounts) := by
  obtain ⟨h1, h2⟩ := C6_missing_account_faults mainAccounts ghostCC ghostPP
  exact ⟨h1 (Or.inr (by decide)), h2 (Or.inl (by decide))⟩

/-- Claim C9: `transfer` and both `process` variants may change only the
balances stored under the named sender and receiver keys: the non-balance
data of every entry (key, identifier, card number, email) is unchanged, and
the entry under any other key is unchanged. -/
theorem C9_frame_condition (m : AccountMap) (fromId toId k : String) (a : ℚ)
    (p : CreditCardPayment) (q : PayPalPayment) :
    (shape (transfer m fromId toId a).2 = shape m ∧
      (k ≠ fromId → k ≠ toId →
        lookupAcc (transfer m fromId toId a).2 k = lookupAcc m k)) ∧
    (shape (p.process m).2 = shape m ∧
      (k ≠ p.from_account_id → k ≠ p.to_account_id →
        lookupAcc (p.process m).2 k = lookupAcc m k)) ∧
    (shape (q.process m).2 = shape m ∧
      (k ≠ q.from_account_id → k ≠ q.to_account_id →
        lookupAcc (q.process m).2 k = lookupAcc m k)) := by
  refine ⟨transfer_frame_spec m fromId toId k a, ?_, ?_⟩
  · rcases processCC_state_cases p m with h | h
    · rw [h]; exact ⟨rfl, fun _ _ => rfl⟩
    · rw [h]; exact transfer_frame_spec m p.from_account_id p.to_account_id k p.amount
  · rcases processPP_state_cases q m with h | h
    · rw [h]; exact ⟨rfl, fun _ _ => rfl⟩
    · rw [h]; exact transfer_frame_spec m q.from_account_id q.to_account_id k q.amount

theorem C9_witness :
    shape (transfer mainAccounts "A001" "A002" 200).2 = shape mainAccounts ∧
    lookupAcc (transfer mainAccounts "A001" "A002" 200).2 "A003" =
      lookupAcc mainAccounts "A003" ∧
    shape (payment1.process mainAccounts).2 = shape mainAccounts ∧
    lookupAcc (payment1.process mainAccounts).2 "A003" = lookupAcc mainAccounts "A003" ∧
    shape (payment2.process mainAccounts).2 = shape mainAccounts ∧
    lookupAcc (payment2.process mainAccounts).2 "A003" = lookupAcc mainAccounts "A003" := by
  obtain ⟨⟨h1, h2⟩, ⟨h3, h4⟩, h5, h6⟩ :=
    C9_frame_condition mainAccounts "A001" "A002" "A003" 200 payment1 payment2
  exact ⟨h1, h2 (by decide) (by decide), h3, h4 (by decide) (by decide),
    h5, h6 (by decide) (by decide)⟩

/-- Claim C3 as stated is false on the code: construction does not validate,
so `__init__` with a negative initial balance yields an account whose
balance is negative, with no error raised. -/
theorem C3_counterexample :
    (BankAccount.init "A" (-1) "c" none).balance = -1 ∧ ((-1 : ℚ) < 0) :=
  ⟨rfl, by norm_num⟩

/-- Claim C3 amended: the balance setter rejects every negative value with a
validation error (producing no account, so the balance is unchanged) and
accepts every non-negative value, and `transfer` preserves non-negativity of
every balance in the state; construction, however, is unvalidated. -/
theorem C3_balance_nonneg (acc acc2 : BankAccount) (v w : ℚ) (m : AccountMap)
    (fromId toId : String) (a : ℚ) :
    (v < 0 → acc.set_balance v = Except.error "Balance cannot be negative") ∧
    (0 ≤ w → acc2.set_balance w = Except.ok { acc2 with balance := w }) ∧
    (allNonneg m → allNonneg (transfer m fromId toId a).2) := by
  refine ⟨?_, ?_, fun hm => transfer_preserves_nonneg m fromId toId a hm⟩
  · intro hv
    simp [BankAccount.set_balance, hv]
  · intro hw
    simp [BankAccount.set_balance, not_lt.mpr hw]

theorem C3_witness :
    accA001.set_balance (-5) = Except.error "Balance cannot be negative" ∧
    accA002.set_balance 7 = Except.ok { accA002 with balance := 7 } ∧
    allNonneg (transfer mainAccounts "A001" "A002" 200).2 := by
  obtain ⟨h1, h2, h3⟩ :=
    C3_balance_nonneg accA001 accA002 (-5) 7 mainAccounts "A001" "A002" 200
  exact ⟨h1 (by norm_num), h2 (by norm_num),
    h3 (by simp only [allNonneg, mainAccounts]; decide)⟩

/-- Claim C7: the driver's scenario: starting from A001 = 1000 and
A002 = 500, the card payment of 200 succeeds leaving A001 = 800 and
A002 = 700, the wrong-email PayPal payment of 300 fails, and the card
payment of 900 from A002 fails, the balances staying 800 and 700. -/
theorem C7_driver_scenario :
    payment1.process mainAccounts = (Except.ok true, mapAfter1) ∧
    payment2.process mapAfter1 = (Except.ok false, mapAfter1) ∧
    payment3.process mapAfter1 = (Except.ok false, mapAfter1) ∧
    lookupAcc mapAfter1 "A001" =
      some (BankAccount.init "A001" 800 "1234567890123456" (some "user1@example.com")) ∧
    lookupAcc mapAfter1 "A002" =
      some (BankAccount.init "A002" 700 "1111222233334444" (some "user2@example.com")) := by
  refine ⟨?_, ?_, ?_, by decide, by decide⟩
  · simp only [CreditCardPayment.process, mainAccounts, mapAfter1, payment1, accA001, accA002,
      lookupAcc, transfer, updateBal, BankAccount.init, BankAccount.verify_credit_card]
    norm_num
    all_goals decide
  · simp only [PayPalPayment.process, mapAfter1, payment2, lookupAcc, transfer, updateBal,
      BankAccount.init, BankAccount.verify_paypal_email, String.toLower, String.map_eq]
    norm_num
    all_goals decide
  · simp only [CreditCardPayment.process, mapAfter1, payment3, lookupAcc, transfer, updateBal,
      BankAccount.init, BankAccount.verify_credit_card]
    norm_num
    all_goals decide

/-- Claim C8 as stated is false on the code: a payment object whose source
and destination identifiers coincide has a valid credential and finds
sufficient funds on both calls, both calls return `true`, yet the sender's
balance is unchanged rather than debited by `2a`. -/
theorem C8_counterexample :
    (selfPayment.process mainAccounts).1 = Except.ok true ∧
    (selfPayment.process (selfPayment.process mainAccounts).2).1 = Except.ok true ∧
    lookupAcc (selfPayment.process (selfPayment.process mainAccounts).2).2 "A001" =
      some accA001 ∧
    accA001.balance ≠ accA001.balance - 2 * selfPayment.amount := by
  have h : selfPayment.process mainAccounts = (Except.ok true, mainAccounts) := by
    simp only [CreditCardPayment.process, selfPayment, mainAccounts, accA001, accA002,
      lookupAcc, transfer, updateBal, BankAccount.init, BankAccount.verify_credit_card]
    norm_num
  refine ⟨by rw [h], by rw [h, h], by rw [h, h]; decide, ?_⟩
  simp only [accA001, BankAccount.init, selfPayment]
  norm_num

/-- Claim C8 amended: for either payment variant with distinct source and
destination identifiers, a valid credential, a positive amount `a`, and
funds sufficient for both calls (`a + a` at most the sender's balance),
processing the same payment object twice returns `true` twice and debits the
sender by `a + a` in total rather than `a`. -/
theorem C8_reprocessing_debits_twice (m : AccountMap)
    (p : CreditCardPayment) (q : PayPalPayment)
    (sender receiver sender2 receiver2 : BankAccount) :
    (p.from_account_id ≠ p.to_account_id →
     lookupAcc m p.from_account_id = some sender →
     lookupAcc m p.to_account_id = some receiver →
     sender.verify_credit_card p.card_number = true →
     0 < p.amount → p.amount + p.amount ≤ sender.balance →
     (p.process m).1 = Except.ok true ∧
     (p.process (p.process m).2).1 = Except.ok true ∧
     lookupAcc (p.process (p.process m).2).2 p.from_account_id =
       some { sender with balance := sender.balance - (p.amount + p.amount) }) ∧
    (q.from_account_id ≠ q.to_account_id →
     lookupAcc m q.from_account_id = some sender2 →
     lookupAcc m q.to_account_id = some receiver2 →
     sender2.verify_paypal_email q.email = true →
     0 < q.amount → q.amount + q.amount ≤ sender2.balance →
     (q.process m).1 = Except.ok true ∧
     (q.process (q.process m).2).1 = Except.ok true ∧
     lookupAcc (q.process (q.process m).2).2 q.from_account_id =
       some { sender2 with balance := sender2.balance - (q.amount + q.amount) }) := by
  constructor
  · intro hne hs hr hv hpos hle2
    have hpos2 : (0 : ℚ) < p.amount + p.amount := by linarith
    have hle1 : p.amount ≤ sender.balance := by linarith
    obtain ⟨h1, h2, h3⟩ := processCC_success_spec p m sender receiver hne hs hr hv hpos hle1
    have hle1b : p.amount ≤ ({ sender with balance := sender.balance - p.amount }).balance := by
      show p.amount ≤ sender.balance - p.amount
      linarith
    obtain ⟨g1, g2, g3⟩ := processCC_success_spec p (p.process m).2
      { sender with balance := sender.balance - p.amount }
      { receiver with balance := receiver.balance + p.amount }
      hne h2 h3 hv hpos hle1b
    refine ⟨h1, g1, ?_⟩
    have hbal : sender.balance - (p.amount + p.amount) =
        sender.balance - p.amount - p.amount := by ring
    rw [hbal]
    exact g2
  · intro hne hs hr hv hpos hle2
    have hpos2 : (0 : ℚ) < q.amount + q.amount := by linarith
    have hle1 : q.amount ≤ sender2.balance := by linarith
    obtain ⟨h1, h2, h3⟩ := processPP_success_spec q m sender2 receiver2 hne hs hr hv hpos hle1
    have hle1b : q.amount ≤ ({ sender2 with balance := sender2.balance - q.amount }).balance := by
      show q.amount ≤ sender2.balance - q.amount
      linarith
    obtain ⟨g1, g2, g3⟩ := processPP_success_spec q (q.process m).2
      { sender2 with balance := sender2.balance - q.amount }
      { receiver2 with balance := receiver2.balance + q.amount }
      hne h2 h3 hv hpos hle1b
    refine ⟨h1, g1, ?_⟩
    have hbal : sender2.balance - (q.amount + q.amount) =
        sender2.balance - q.amount - q.amount := by ring
    rw [hbal]
    exact g2

theorem C8_witness :
    ((payment1.process mainAccounts).1 = Except.ok true ∧
     (payment1.process (payment1.process mainAccounts).2).1 = Except.ok true ∧
     lookupAcc (payment1.process (payment1.process mainAccounts).2).2
       payment1.from_account_id =
       some { accA001 with balance := accA001.balance - (payment1.amount + payment1.amount) }) ∧
    ((okPP.process mainAccounts).1 = Except.ok true ∧
     (okPP.process (okPP.process mainAccounts).2).1 = Except.ok true ∧
     lookupAcc (okPP.process (okPP.process mainAccounts).2).2 okPP.from_account_id =
       some { accA001 with balance := accA001.balance - (okPP.amount + okPP.amount) }) := by
  obtain ⟨h1, h2⟩ := C8_reprocessing_debits_twice mainAccounts payment1 okPP
    accA001 accA002 accA001 accA002
  refine ⟨h1 (by decide) (by decide) (by decide) (by decide) (by decide)
      (by norm_num [payment1, accA001, BankAccount.init]),
    h2 (by decide) (by decide) (by decide) ?_ (by decide)
      (by norm_num [okPP, accA001, BankAccount.init])⟩
  simp only [BankAccount.verify_paypal_email, accA001, BankAccount.init, okPP,
    String.toLower, String.map_eq]
  decide

end HW
